import Mathlib

/-!
Verification of the warm-transfer backend (`backend/main.py` and its services)
against its natural-language specification.  The Python source is shallowly
embedded: pure functions become Lean functions, module-level mutable stores
become explicit state records threaded through the operations, remote calls
(Groq, Twilio, LiveKit) become oracles supplied as parameters, and Python
exceptions become `Except` values.
-/

namespace WarmTransfer

/-! ## Python string primitives

The Python string methods used by the source (`strip`, slicing,
`split('\n')`, `replace`, `startswith`, `len`) are embedded as structural
functions over the character list of a `String`, so that every definition
evaluates by kernel reduction. -/

/-- Python `s.strip()`: drop leading and trailing whitespace. -/
def pyStrip (s : String) : String :=
  ⟨((s.data.dropWhile Char.isWhitespace).reverse.dropWhile Char.isWhitespace).reverse⟩

/-- Python `s[:n]`: the first `n` characters. -/
def pyTake (s : String) (n : Nat) : String := ⟨s.data.take n⟩

/-- Python `len(s)`: the number of characters. -/
def pyLen (s : String) : Nat := s.data.length

/-- Python `s.split('\n')` on a character list. -/
def splitLinesGo : List Char → List Char → List String
  | [], acc => [⟨acc.reverse⟩]
  | '\n' :: rest, acc => (⟨acc.reverse⟩ : String) :: splitLinesGo rest []
  | c :: rest, acc => splitLinesGo rest (c :: acc)

/-- Python `s.split('\n')`. -/
def splitLines (s : String) : List String := splitLinesGo s.data []

/-- Python `s.replace('\n', ' ')`. -/
def replaceNLBySpace (s : String) : String :=
  ⟨s.data.map (fun c => if c = '\n' then ' ' else c)⟩

/-- Python `s.startswith(pre)`. -/
def pyStartsWith (s pre : String) : Bool := pre.data.isPrefixOf s.data

/-! ## Summarizer (`backend/services/llm_client.py`)

`generate_summary` calls the Groq chat API with retry and falls back to a
deterministic local summary.  The remote side is modelled by an oracle
`Nat → GroqResult` giving, for each attempt index, either an exception raised
by the API call or the `message.content` string of the response.  Python
exceptions are modelled by `Except String`; a raising path produces
`.error`, a returning path produces `.ok`. -/

/-- Configuration of the Groq summarizer, from module-level state of
`llm_client.py`: `GROQ_AVAILABLE` (SDK import succeeded) and the
`GROQ_API_KEY` environment variable (`""` models an unset key, matching
Python falsiness). -/
structure GroqConfig where
  groqAvailable : Bool
  apiKey : String
deriving DecidableEq, Repr

/-- Outcome of one attempt against the Groq API, as seen by `_call_groq`:
either some exception was raised (transport error, no choices, missing
message — all raising paths), or a response arrived whose
`message.content` is the given string. -/
inductive GroqResult where
  | exn (msg : String)
  | content (s : String)
deriving DecidableEq, Repr

/-- One attempt of `_call_groq` (llm_client.py lines 180-246): an API
exception propagates; an empty `message.content` raises
`ValueError("Empty content in API response")`; otherwise the stripped
content is returned. -/
def call_groq (oracle : Nat → GroqResult) (attempt : Nat) : Except String String :=
  match oracle attempt with
  | .exn m => .error m
  | .content c => if c = "" then .error "Empty content in API response" else .ok (pyStrip c)

/-- `_retry_with_backoff` (llm_client.py lines 60-79): run the call up to
`maxRetries` times, re-raising the last exception when all attempts fail.
`attempt` is the index of the next attempt; the sleeps between attempts do
not affect the returned value and are not modelled here. -/
def retry_with_backoff (oracle : Nat → GroqResult) :
    (remaining : Nat) → (attempt : Nat) → Except String String
  | 0, _ => .error "no attempts made"
  | n + 1, k =>
    match call_groq oracle k with
    | .ok s => .ok s
    | .error m => if n = 0 then .error m else retry_with_backoff oracle n (k + 1)

/-- Default `MAX_RETRIES` of `llm_client.py` (line 43). -/
def llmMaxRetries : Nat := 3

/-- `_fallback_summary` (llm_client.py lines 266-291).  Blank input yields a
fixed placeholder; otherwise the last non-blank line (first 200 characters)
is wrapped in a fixed template.  The final defensive branch of the source
(`except Exception`) is unreachable in this model because the string
operations are total. -/
def fallback_summary (text : String) : String :=
  if text = "" ∨ pyStrip text = "" then
    "LLM unavailable — No call notes available. Please verify details with the caller."
  else
    let lines := ((splitLines text).map pyStrip).filter (fun l => l ≠ "")
    match lines.getLast? with
    | some last =>
      "LLM unavailable — Call notes (partial): " ++ (pyTake last 200) ++
        "... Please verify all details with the caller."
    | none => "LLM unavailable — Please verify all details with the caller."

/-- The truncation of over-long input (llm_client.py lines 129-132):
inputs beyond 8000 characters are cut to 8000. -/
def truncated (text : String) : String :=
  if pyLen text > 8000 then pyTake text 8000 else text

/-- `generate_summary` (llm_client.py lines 100-263).  Checks, in source
order: SDK availability, key presence, blank input, truncation to 8000
characters, key format (a `gsk_`-prefixed key), then the retried remote
call; every failing branch is converted to a local summary, never
re-raised.  The result is `Except` so that "never raises" is a provable
statement rather than a typing accident: a raising path of the source
would appear as `.error`. -/
def generate_summary (cfg : GroqConfig) (oracle : Nat → GroqResult) (text : String) :
    Except String String :=
  if ¬ cfg.groqAvailable then .ok (fallback_summary text)
  else if cfg.apiKey = "" then .ok (fallback_summary text)
  else if text = "" ∨ pyStrip text = "" then .ok "No conversation to summarize."
  else if ¬ pyStartsWith (pyStrip cfg.apiKey) "gsk_" then .ok (fallback_summary (truncated text))
  else
    match retry_with_backoff oracle llmMaxRetries 0 with
    | .ok s => .ok s
    | .error _ => .ok (fallback_summary (truncated text))

/-! ## Phone-number validation (`backend/models.py`, `TwilioTransferRequest`)

Pydantic first enforces the `Field` constraints of `phone_number`
(`min_length=10`, `max_length=20`) and then runs the custom validator
`validate_phone_number`. -/

/-- The cleaning step of `validate_phone_number` (models.py line 92):
`re.sub(r'[^\d+]', '', v)` keeps only digits and plus signs. -/
def cleanPhone (v : String) : String :=
  String.mk (v.toList.filter (fun c => c.isDigit ∨ c = '+'))

/-- The regular expression `^\+[1-9]\d{1,14}$` (models.py line 95): a plus,
a nonzero digit, then one to fourteen digits. -/
def e164Match (s : String) : Bool :=
  match s.toList with
  | '+' :: c :: rest =>
    ('1' ≤ c ∧ c ≤ '9') ∧ rest.length ≥ 1 ∧ rest.length ≤ 14 ∧ rest.all Char.isDigit
  | _ => false

/-- `TwilioTransferRequest.validate_phone_number` (models.py lines 86-108):
empty check, cleaning, E.164 regex, then length bounds; the cleaned
(normalised) number is returned on success. -/
def validate_phone_number (v : String) : Except String String :=
  if v = "" then .error "Phone number is required"
  else
    let cleaned := cleanPhone v
    if ¬ e164Match cleaned then
      .error "Phone number must be in E.164 format (e.g., +12125551234)."
    else if pyLen cleaned < 11 then .error "Phone number too short"
    else if pyLen cleaned > 16 then .error "Phone number too long"
    else .ok cleaned

/-- Request-level validation of the `phone_number` field: the pydantic
`Field(min_length=10, max_length=20)` bounds run before the custom
validator. -/
def phoneFieldValidation (v : String) : Except String String :=
  if pyLen v < 10 ∨ pyLen v > 20 then .error "field length out of bounds"
  else validate_phone_number v

/-! ## Room State Registry (`backend/main.py`, class `RoomState`)

The registry owns two dicts guarded by one re-entrant lock:
`_rooms : room → state dict` and `_room_creation_time : room → datetime`.
Dicts become association lists (`List (String × _)`, first binding wins, as
produced by the registry's own operations); `datetime.utcnow()` becomes a
`Nat` of seconds supplied by the caller. -/

/-- Lookup in an association list modelling a Python dict. -/
def alookup {α : Type} (l : List (String × α)) (k : String) : Option α :=
  (l.find? (fun p => p.1 = k)).map Prod.snd

/-- Deletion from an association list modelling `del d[k]`. -/
def aerase {α : Type} (l : List (String × α)) (k : String) : List (String × α) :=
  l.filter (fun p => p.1 ≠ k)

/-- The per-room state dict built and mutated by the `/transfer` endpoint.
The initial dict of `create_room` has no `summary`/`error_time` keys, hence
those fields are `Option`. -/
structure RoomInfo where
  status : String
  created_at : Nat
  participants : List String
  transfer_initiated_at : Nat
  initiator : String
  target : String
  summary : Option String
  error_time : Option Nat
deriving DecidableEq, Repr

/-- The `RoomState` registry: `_rooms` and `_room_creation_time`
(main.py lines 167-172). -/
structure RoomRegistry where
  rooms : List (String × RoomInfo)
  creation : List (String × Nat)
deriving DecidableEq, Repr

/-- `RoomState.create_room` (main.py lines 174-181): insert only when the
room is absent, recording the creation time. -/
def RoomRegistry.create_room (reg : RoomRegistry) (name : String) (info : RoomInfo)
    (now : Nat) : RoomRegistry :=
  if (alookup reg.rooms name).isSome then reg
  else { rooms := reg.rooms ++ [(name, info)], creation := reg.creation ++ [(name, now)] }

/-- `RoomState.get_room_state` (main.py lines 183-185). -/
def RoomRegistry.get_room_state (reg : RoomRegistry) (name : String) : Option RoomInfo :=
  alookup reg.rooms name

/-- `RoomState.update_room_state` (main.py lines 187-193): apply a partial
dict update (modelled by `f`) in place when the room exists. -/
def RoomRegistry.update_room_state (reg : RoomRegistry) (name : String)
    (f : RoomInfo → RoomInfo) : RoomRegistry :=
  { reg with rooms := reg.rooms.map (fun p => if p.1 = name then (p.1, f p.2) else p) }

/-- `RoomState.remove_room` (main.py lines 195-203): delete the room from
both dicts when present in `_rooms`. -/
def RoomRegistry.remove_room (reg : RoomRegistry) (name : String) : RoomRegistry :=
  if (alookup reg.rooms name).isSome then
    { rooms := aerase reg.rooms name, creation := aerase reg.creation name }
  else reg

/-- The room timeout of the registry, `timedelta(hours=1)` (main.py
line 172), in seconds. -/
def roomTimeoutDefault : Nat := 3600

/-- `RoomState.cleanup_stale_rooms` (main.py lines 205-223): collect the
rooms whose age exceeds the timeout from `_room_creation_time`, then remove
each with `remove_room`. -/
def RoomRegistry.cleanup_stale_rooms (reg : RoomRegistry) (now timeout : Nat) :
    RoomRegistry :=
  let stale := ((reg.creation.filter (fun p => now - p.2 > timeout)).map Prod.fst)
  stale.foldl (fun r name => r.remove_room name) reg

/-- Well-formedness maintained by the registry operations (`create_room`
inserts into both dicts only when absent, `remove_room` deletes from both):
no duplicate keys, and `_rooms` and `_room_creation_time` hold the same
rooms in the same insertion order. -/
def RoomRegistry.WF (reg : RoomRegistry) : Prop :=
  (reg.rooms.map Prod.fst).Nodup ∧ reg.rooms.map Prod.fst = reg.creation.map Prod.fst

/-! ## Transcript store (`backend/transcripts/manager.py`)

`main.py` does `import transcripts`, which resolves to the `transcripts`
package re-exporting `TranscriptManager`'s room-level operations.  The two
dicts of the manager become total functions with the manager's own defaults
(a missing room has no fragments and no summary). -/

/-- `TranscriptManager`'s per-room state: `room_transcripts` (list of
fragments per room) and `room_summaries`. -/
structure TranscriptStore where
  room_transcripts : String → List String
  room_summaries : String → Option String

/-- `TranscriptManager.set_room_transcript` (manager.py lines 93-103):
despite the name it APPENDS the argument as a new fragment. -/
def set_room_transcript (st : TranscriptStore) (room t : String) : TranscriptStore :=
  { st with room_transcripts :=
      fun r => if r = room then st.room_transcripts room ++ [t] else st.room_transcripts r }

/-- `TranscriptManager.get_room_transcripts` (manager.py lines 105-114). -/
def get_room_transcripts (st : TranscriptStore) (room : String) : List String :=
  st.room_transcripts room

/-- `TranscriptManager.set_room_summary` (manager.py lines 116-124):
replace-on-write. -/
def set_room_summary (st : TranscriptStore) (room s : String) : TranscriptStore :=
  { st with room_summaries := fun r => if r = room then some s else st.room_summaries r }

/-- `TranscriptManager.get_room_summary` (manager.py lines 126-135). -/
def get_room_summary (st : TranscriptStore) (room : String) : Option String :=
  st.room_summaries room

/-- `"\n".join(fragments)`, the concatenation the endpoint applies to the
fragment list (main.py line 391); `join` of an empty list is `""`, matching
the `if existing_transcripts else ""` guard. -/
def joinNL : List String → String
  | [] => ""
  | [s] => s
  | s :: rest => s ++ "\n" ++ joinNL (rest)

/-! ## Credential minting (`backend/services/livekit_client.py`)

`mint_access_token` builds a JWT from a payload and signs it with the
process-wide secret.  `jwt.encode` with a fixed key is injective on
payloads, so tokens are modelled by their payloads. -/

/-- The `video` grant of the token payload (livekit_client.py
lines 45-68). -/
structure VideoGrant where
  room : String
  roomJoin : Bool
  canPublish : Bool
  canSubscribe : Bool
  canPublishData : Bool
deriving DecidableEq, Repr

/-- The JWT payload (livekit_client.py lines 70-76). -/
structure TokenPayload where
  iss : String
  nbf : Nat
  exp : Nat
  sub : String
  video : VideoGrant
deriving DecidableEq, Repr

/-- LiveKit configuration read from the environment. -/
structure LiveKitConfig where
  apiKey : String
  apiSecret : String
deriving DecidableEq, Repr

/-- Role-dependent grants of `mint_access_token`: "agent" gets
publish-data, "caller" and any other role do not. -/
def grantFor (role : String) (room : String) : VideoGrant :=
  if role = "agent" then
    { room := room, roomJoin := true, canPublish := true, canSubscribe := true,
      canPublishData := true }
  else if role = "caller" then
    { room := room, roomJoin := true, canPublish := true, canSubscribe := true,
      canPublishData := false }
  else
    { room := room, roomJoin := true, canPublish := true, canSubscribe := true,
      canPublishData := false }

/-- `mint_access_token` (livekit_client.py lines 36-86): raise when the key
or secret is unset, otherwise produce the signed payload. -/
def mint_access_token (cfg : LiveKitConfig) (now : Nat) (room identity role : String)
    (ttl : Nat := 3600) : Except String TokenPayload :=
  if cfg.apiKey = "" ∨ cfg.apiSecret = "" then
    .error "LIVEKIT_API_KEY and LIVEKIT_API_SECRET must be set"
  else
    .ok { iss := cfg.apiKey, nbf := now, exp := now + ttl, sub := identity,
          video := grantFor role room }

/-! ## The `/transfer` endpoint (`backend/main.py` lines 313-503)

The endpoint's mutable environment: the module-level `transfer_locks` dict
(a partial map room → locked flag; `none` means no `Lock` object exists
yet), the `RoomState` registry and the transcript manager.  The
collaborators it calls — `generate_summary` (guarded by its own
`try/except` fallback) and `mint_access_token` — are supplied as
possibly-failing functions so that failures can be injected at any step. -/

/-- Global mutable state touched by `/transfer`. -/
structure Sys where
  locks : String → Option Bool
  registry : RoomRegistry
  store : TranscriptStore

/-- The validated request body (`TransferRequest` of models.py; pydantic
strips the fields, so the endpoint sees trimmed values). -/
structure TransferRequest where
  from_room : String
  initiator_identity : String
  target_identity : String
  transcript : String
deriving DecidableEq, Repr

/-- The `TransferResponse` body (models.py lines 59-64), tokens modelled by
their payloads. -/
structure TransferResponse where
  to_room : String
  initiator_token : TokenPayload
  target_token : TokenPayload
  caller_token : TokenPayload
  summary : String
deriving DecidableEq, Repr

/-- A surfaced HTTP error (status code and detail). -/
structure HttpError where
  code : Nat
  detail : String
deriving DecidableEq, Repr

/-- Collaborators and ambient configuration of one `/transfer` execution. -/
structure TransferEnv where
  summarize : String → Except String String
  mint : String → String → String → Except String TokenPayload
  callerIdentity : String
  now : Nat

/-- Outcome of `/transfer`: with the lock already held by another in-flight
transfer the endpoint blocks forever inside `lock.acquire()` (the `with`
statement on a plain `threading.Lock`, main.py line 363 — `LOCK_TIMEOUT` is
defined on line 230 but never used); otherwise it finishes with a response
or an error and a final state. -/
inductive TransferOutcome where
  | blocked
  | done (result : Except HttpError TransferResponse) (st : Sys)

/-- `transfer_locks.setdefault(room, Lock())` (main.py line 363): create an
unlocked lock when absent. -/
def setdefaultLock (locks : String → Option Bool) (room : String) : String → Option Bool :=
  fun r => if r = room then some ((locks room).getD false) else locks r

/-- Set the held flag of an existing lock. -/
def storeLock (locks : String → Option Bool) (room : String) (b : Bool) :
    String → Option Bool :=
  fun r => if r = room then some b else locks r

/-- The `finally` block of `/transfer` (main.py lines 496-503): release the
room's lock when it exists and is currently held. -/
def finallyRelease (room : String) (st : Sys) : Sys :=
  if st.locks room = some true then { st with locks := storeLock st.locks room false }
  else st

/-- The generic failure surfaced by the endpoint's outermost handler
(main.py lines 491-494).  All failing paths end here: inner handlers
swallow their exception, the dangling bare `raise` on line 479 raises a
fresh `RuntimeError`, and the outer `except Exception` (which also catches
the endpoint's own `HTTPException`s) converts everything to this error. -/
def genericTransferError : HttpError :=
  ⟨500, "An unexpected error occurred during transfer. Please try again."⟩

/-- `cleanup_on_error` (main.py lines 332-342): when the room exists in the
registry, mark it `error` with a timestamp. -/
def cleanup_on_error (reg : RoomRegistry) (room : String) (now : Nat) : RoomRegistry :=
  if (alookup reg.rooms room).isSome then
    reg.update_room_state room (fun d => { d with status := "error", error_time := some now })
  else reg

/-- The initial state dict of `create_room` inside `/transfer` (main.py
lines 374-381). -/
def initialRoomInfo (env : TransferEnv) (req : TransferRequest) : RoomInfo :=
  { status := "active", created_at := env.now,
    participants := [req.initiator_identity, req.target_identity],
    transfer_initiated_at := env.now, initiator := req.initiator_identity,
    target := req.target_identity, summary := none, error_time := none }

/-- Steps of the `/transfer` body before token minting (main.py lines
366-421), acting on registry and store: ensure a registry entry, append
the request transcript when non-blank, read and join the stored fragments,
summarize with the endpoint's own fallback (lines 394-405), mark the room
`transferring`, persist the summary and — when the joined transcript is
non-empty — the joined transcript as a further fragment.  Returns the
updated registry, the updated store and the summary text. -/
def transferPrepare (env : TransferEnv) (req : TransferRequest)
    (reg : RoomRegistry) (store : TranscriptStore) :
    RoomRegistry × TranscriptStore × String :=
  let toRoom := req.from_room
  let reg1 := if (reg.get_room_state toRoom).isSome then reg
              else reg.create_room toRoom (initialRoomInfo env req) env.now
  let store1 := if req.transcript ≠ "" ∧ pyStrip req.transcript ≠ "" then
                  set_room_transcript store toRoom (pyStrip req.transcript)
                else store
  let joined := joinNL (get_room_transcripts store1 toRoom)
  let summary :=
    match env.summarize joined with
    | .ok s => s
    | .error _ =>
      "LLM unavailable — Notes: " ++ pyStrip (replaceNLBySpace (pyTake joined 120)) ++
        " — please verify details."
  let reg2 := reg1.update_room_state toRoom
    (fun d => { d with status := "transferring", transfer_initiated_at := env.now,
                       initiator := req.initiator_identity, target := req.target_identity,
                       summary := some summary })
  let store2 := set_room_summary store1 toRoom summary
  let store3 := if joined ≠ "" then set_room_transcript store2 toRoom joined else store2
  (reg2, store3, summary)

/-- The body of `/transfer` executed while holding the room lock (main.py
lines 366-479): the preparation steps, then the three token mints.  A
minting failure runs `cleanup_on_error` once per textual call site of the
inner-inner, inner and outer handlers (main.py lines 466, 475, 477, 487,
489; `to_room` and `from_room` coincide) and surfaces the generic
error. -/
def transferBody (env : TransferEnv) (req : TransferRequest)
    (reg : RoomRegistry) (store : TranscriptStore) :
    Except HttpError TransferResponse × RoomRegistry × TranscriptStore :=
  let (reg2, store3, summary) := transferPrepare env req reg store
  let toRoom := req.from_room
  let failState := fun (r : RoomRegistry) =>
    let r := cleanup_on_error r toRoom env.now
    let r := cleanup_on_error r toRoom env.now
    let r := cleanup_on_error r req.from_room env.now
    let r := cleanup_on_error r toRoom env.now
    cleanup_on_error r req.from_room env.now
  match env.mint toRoom req.initiator_identity "agent" with
  | .error _ => (.error genericTransferError, failState reg2, store3)
  | .ok tokI =>
    match env.mint toRoom req.target_identity "agent" with
    | .error _ => (.error genericTransferError, failState reg2, store3)
    | .ok tokT =>
      match env.mint toRoom env.callerIdentity "caller" with
      | .error _ => (.error genericTransferError, failState reg2, store3)
      | .ok tokC =>
        (.ok { to_room := toRoom, initiator_token := tokI, target_token := tokT,
               caller_token := tokC, summary := summary }, reg2, store3)

/-- The `/transfer` endpoint (main.py lines 313-503).  Validation failures
raise `HTTPException(400)`, which the outer `except Exception` converts to
the generic 500 after running `cleanup_on_error` on `from_room`; then the
`finally` block runs.  Otherwise the lock is created on demand and
acquired: held means the request blocks indefinitely; free means the body
runs, the `with` statement releases the lock on every exit, and `finally`
finds it already released. -/
def transfer (env : TransferEnv) (req : TransferRequest) (st : Sys) : TransferOutcome :=
  if req.from_room = "" ∨ req.initiator_identity = "" ∨ req.target_identity = "" then
    let st1 := { st with registry := cleanup_on_error st.registry req.from_room env.now }
    .done (.error genericTransferError) (finallyRelease req.from_room st1)
  else
    let locks1 := setdefaultLock st.locks req.from_room
    if locks1 req.from_room = some true then .blocked
    else
      let (res, reg', store') :=
        transferBody env req st.registry st.store
      let st2 : Sys := { locks := storeLock locks1 req.from_room false,
                         registry := reg', store := store' }
      .done res (finallyRelease req.from_room st2)

/-- `mint_access_token` with the default one-hour ttl, in the shape the
`/transfer` endpoint calls it (room, identity, role). -/
def mintTok (cfg : LiveKitConfig) (now : Nat) :
    String → String → String → Except String TokenPayload :=
  fun room identity role => mint_access_token cfg now room identity role

/-- The lock-related guarantee of a finished `/transfer` execution: a
blocked execution never finishes; a finished one leaves the room's lock
unheld, and a subsequent request for the same room can acquire the lock
(it is never turned away as blocked). -/
def lockFreeAfter (room : String) : TransferOutcome → Prop
  | .blocked => True
  | .done _ st' =>
    st'.locks room ≠ some true ∧
      ∀ (env2 : TransferEnv) (i t tr : String),
        transfer env2 ⟨room, i, t, tr⟩ st' ≠ .blocked

/-- The summary of a finished, successful transfer, if any. -/
def doneSummary : TransferOutcome → Option String
  | .done (.ok r) _ => some r.summary
  | _ => none

/-! ## Twilio call placement with retry (`backend/main.py` lines 663-757)

The `while retry_count < MAX_RETRIES` loop around `client.calls.create`.
Each attempt is an oracle value: success carries the call's `sid` and
`status`; a `TwilioRestException` is retried with exponential backoff; any
other exception aborts immediately.  The backoff sleeps
`TWILIO_RETRY_DELAY * 2 ** (retry_count - 1)` are recorded (in units of the
configured delay) so the schedule is part of the model. -/

/-- Outcome of one `client.calls.create` attempt. -/
inductive TwilioAttempt where
  | ok (sid status : String)
  | twilioError (msg : String)
  | otherError (msg : String)
deriving DecidableEq, Repr

instance {ε α : Type} [DecidableEq ε] [DecidableEq α] : DecidableEq (Except ε α) :=
  fun x y =>
    match x, y with
    | .ok a, .ok b => decidable_of_iff (a = b) (by simp)
    | .error a, .error b => decidable_of_iff (a = b) (by simp)
    | .ok _, .error _ => isFalse (fun h => Except.noConfusion h)
    | .error _, .ok _ => isFalse (fun h => Except.noConfusion h)

/-- Result of the placement loop: the surfaced result, the number of
placement attempts actually made, and the backoff waits slept between
attempts (in units of `TWILIO_RETRY_DELAY`). -/
structure PlaceOutcome where
  result : Except HttpError (String × String)
  attempts : Nat
  delays : List Nat
deriving DecidableEq, Repr

/-- The error surfaced after exhausting the retries (main.py lines
736-743). -/
def callInitiationFailed (maxRetries : Nat) : HttpError :=
  ⟨500, "Failed to initiate call after " ++ toString maxRetries ++ " attempts"⟩

/-- The error surfaced on a non-Twilio exception (main.py lines 750-757). -/
def unexpectedCallError : HttpError :=
  ⟨500, "An unexpected error occurred while initiating the call"⟩

/-- One step of the placement loop; `remaining = MAX_RETRIES - retry_count`
and `made` counts attempts already made (equal to `retry_count` at the top
of the loop).  On a `TwilioRestException` the count is incremented and,
when attempts remain, the loop sleeps `2 ** (retry_count - 1)` delay units
and retries. -/
def placeCallGo (oracle : Nat → TwilioAttempt) (maxRetries : Nat) :
    (remaining made : Nat) → List Nat → PlaceOutcome
  | 0, made, ds => ⟨.error (callInitiationFailed maxRetries), made, ds⟩
  | n + 1, made, ds =>
    match oracle made with
    | .ok sid status => ⟨.ok (sid, status), made + 1, ds⟩
    | .twilioError _ =>
      if n = 0 then ⟨.error (callInitiationFailed maxRetries), made + 1, ds⟩
      else placeCallGo oracle maxRetries n (made + 1) (ds ++ [2 ^ made])
    | .otherError _ => ⟨.error unexpectedCallError, made + 1, ds⟩

/-- The retry loop of `/twilio-transfer` (main.py lines 669-757) with
`MAX_RETRIES` attempts.  (When `MAX_RETRIES = 0` the `while` body never
runs and the endpoint falls through; the `remaining = 0` base case stands
for that degenerate exit.) -/
def placeCallLoop (oracle : Nat → TwilioAttempt) (maxRetries : Nat) : PlaceOutcome :=
  placeCallGo oracle maxRetries maxRetries 0 []

/-- Default `MAX_RETRIES` for Twilio placement (main.py line 554). -/
def twilioMaxRetries : Nat := 3

/-- The `/twilio-transfer` endpoint down to the placement loop, restricted
to the request validation relevant to C8: the pydantic model validates
`phone_number` while parsing the request, before the handler body — and
hence before any placement attempt — runs. -/
def twilioEndpointPhone (phone : String) (oracle : Nat → TwilioAttempt) : PlaceOutcome :=
  match phoneFieldValidation phone with
  | .error m => ⟨.error ⟨422, m⟩, 0, []⟩
  | .ok _ => placeCallLoop oracle twilioMaxRetries

/-! ## Call-status persistence (`backend/services/database.py`,
`backend/db_operations.py`, and their callers in `main.py`)

Two distinct sqlite stores exist.  `services/database.py` owns
`room_store.db` with table `call_status(room_name PRIMARY KEY, ...)` and
`INSERT OR REPLACE` semantics; the placement path (main.py line 697), the
background monitor (line 825) and the webhook (line 894) all write through
its `set_call_status` — the webhook passing the call sid as `room_name`.
`db_operations.py` owns `warm_transfer.db` with table `calls` (rows
appended, latest per room authoritative); the `/twilio-call-status`
endpoint reads through its `get_call_status` (imported at main.py
line 147), which none of the three write paths touch. -/

/-- A row of the `call_status` table of `services/database.py`. -/
structure SDCallRow where
  twilio_call_sid : String
  status : String
  phone_number : String
deriving DecidableEq, Repr

/-- A row of the `calls` table of `db_operations.py` (columns relevant to
the status query; `error`/`metadata` omitted as they are `None` on every
path modelled here). -/
structure DbCallRow where
  call_sid : String
  room_name : String
  phone_number : String
  status : String
deriving DecidableEq, Repr

/-- The two persistent stores: `room_store.db`'s `call_status` table as a
map keyed by its primary key `room_name`, and `warm_transfer.db`'s `calls`
table as an append-ordered list. -/
structure CallStores where
  sd : String → Option SDCallRow
  dbo : List DbCallRow

/-- `services.database.set_call_status` (database.py lines 188-203):
`INSERT OR REPLACE` keyed by `room_name`. -/
def sd_set_call_status (s : CallStores) (room sid status phone : String) : CallStores :=
  { s with sd := fun r =>
      if r = room then some ⟨sid, status, phone⟩ else s.sd r }

/-- `db_operations.get_call_status` by room name (db_operations.py lines
211-242): the most recently created `calls` row for the room. -/
def dbo_get_call_status (s : CallStores) (room : String) : Option DbCallRow :=
  (s.dbo.filter (fun r => r.room_name = room)).getLast?

/-- Dictionary access on a `calls` row, as in
`call_status.get("twilio_call_sid")`: the row has no such column, only
`call_sid`. -/
def dbRowGet (row : DbCallRow) : String → Option String
  | "call_sid" => some row.call_sid
  | "room_name" => some row.room_name
  | "phone_number" => some row.phone_number
  | "status" => some row.status
  | _ => none

/-- The placement path's persistence (main.py lines 696-702). -/
def placementPersist (s : CallStores) (room sid status phone : String) : CallStores :=
  sd_set_call_status s room sid status phone

/-- The background monitor's persistence (main.py lines 824-830): same
write, with an empty phone number. -/
def monitorPersist (s : CallStores) (room sid status : String) : CallStores :=
  sd_set_call_status s room sid status ""

/-- The webhook's persistence (main.py lines 892-899): the call sid is
passed as the `room_name` key ("Using call_sid as room_name since we don't
have the room name"). -/
def webhookPersist (s : CallStores) (sid status : String) : CallStores :=
  sd_set_call_status s sid sid status ""

/-- Result of the `/twilio-call-status/{room_name}` query. -/
inductive CallStatusQuery where
  | notFound
  | status (st sid phone : String)
deriving DecidableEq, Repr

/-- The `/twilio-call-status` endpoint (main.py lines 909-948): read
through `db_operations.get_call_status`, then require a truthy
`"twilio_call_sid"` entry in the row dict. -/
def get_twilio_call_status (s : CallStores) (room : String) : CallStatusQuery :=
  match dbo_get_call_status s room with
  | none => .notFound
  | some row =>
    match dbRowGet row "twilio_call_sid" with
    | none => .notFound
    | some "" => .notFound
    | some sid =>
      .status ((dbRowGet row "status").getD "unknown") sid
        ((dbRowGet row "phone_number").getD "")

/-- The empty pair of stores (fresh databases). -/
def CallStores.empty : CallStores := { sd := fun _ => none, dbo := [] }

/-- The fold performed by `cleanup_stale_rooms` over the stale room
names. -/
def removeFold (reg : RoomRegistry) (names : List String) : RoomRegistry :=
  names.foldl (fun r name => r.remove_room name) reg

/-- The list of stale room names collected by one sweep (main.py lines
211-214). -/
def staleNames (reg : RoomRegistry) (now timeout : Nat) : List String :=
  (reg.creation.filter (fun p => now - p.2 > timeout)).map Prod.fst

/-- A stale room marked `error` and a fresh active room, for the C9
witness. -/
def regW : RoomRegistry :=
  { rooms := [("old", ⟨"error", 0, [], 0, "a", "b", none, none⟩),
              ("new", ⟨"active", 5000, [], 5000, "a", "b", none, none⟩)],
    creation := [("old", 0), ("new", 5000)] }

/-! ## Concrete instances used by witnesses and counterexamples -/

/-- A configuration with the Groq SDK missing. -/
def cfgNoGroq : GroqConfig := ⟨false, ""⟩

/-- A configuration with the Groq SDK installed and a well-formed key. -/
def cfgGroq : GroqConfig := ⟨true, "gsk_testkey"⟩

/-- A remote side that raises on every attempt. -/
def oracleDown : Nat → GroqResult := fun _ => .exn "connection error"

/-- A remote side that succeeds with whitespace-only message content. -/
def oracleBlank : Nat → GroqResult := fun _ => .content " "

/-! ## C6: Twilio call placement retry -/

/-- The scenario oracle for C6: the first two placement attempts raise a
`TwilioRestException`, the third succeeds. -/
def oracleThirdTime : Nat → TwilioAttempt :=
  fun k => if k < 2 then .twilioError "transient" else .ok "CA123" "queued"

/-! ## C7: call-status persistence paths do not meet the status query -/

/-- The concrete C7 scenario: the placement path persists status "queued"
for call `CA1` in room `r1`, then the webhook reports `CA1` as
"completed". -/
def c7Stores : CallStores :=
  webhookPersist (placementPersist CallStores.empty "r1" "CA1" "queued" "+12125551234")
    "CA1" "completed"

/-- Environment whose collaborators all fail. -/
def envFail : TransferEnv :=
  { summarize := fun _ => .error "summarizer down",
    mint := fun _ _ _ => .error "mint down",
    callerIdentity := "caller", now := 0 }

/-- System state in which room `r1`'s transfer lock is already held. -/
def sysHeldLock : Sys :=
  { locks := fun r => if r = "r1" then some true else none,
    registry := ⟨[], []⟩,
    store := ⟨fun _ => [], fun _ => none⟩ }

/-- A valid transfer request for room `r1`. -/
def reqR1 : TransferRequest := ⟨"r1", "agentA", "agentB", ""⟩

/-- LiveKit configuration with both secrets present. -/
def cfgLK : LiveKitConfig := ⟨"lk_key", "lk_secret"⟩

/-- The empty system state: no locks, empty registry, empty stores. -/
def sysEmpty : Sys :=
  { locks := fun _ => none, registry := ⟨[], []⟩,
    store := ⟨fun _ => [], fun _ => none⟩ }

/-- A valid request carrying a transcript line. -/
def reqHelp : TransferRequest := ⟨"r1", "agentA", "agentB", "Caller: help"⟩

/-- Environment in which the summarizer always fails (so the local
fallback is used) and minting works. -/
def envMintOk : TransferEnv :=
  ⟨fun _ => .error "llm down", mintTok cfgLK 100, "caller", 100⟩

/-- Environment whose remote summarizer "succeeds" with whitespace-only
content: `generate_summary` then returns the stripped — empty — string. -/
def envBlankSummary : TransferEnv :=
  ⟨generate_summary cfgGroq oracleBlank, mintTok cfgLK 100, "caller", 100⟩

/-- System state whose store already holds one fragment for `r1`. -/
def sysFrag : Sys :=
  { locks := fun _ => none, registry := ⟨[], []⟩,
    store := ⟨fun r => if r = "r1" then ["hello"] else [], fun _ => none⟩ }

/-! # Theorems -/

/-! ## Association-list lemmas for the registry -/

theorem alookup_cons {α : Type} (p : String × α) (t : List (String × α)) (r : String) :
    alookup (p :: t) r = if p.1 = r then some p.2 else alookup t r := by
  by_cases h : p.1 = r
  · rw [alookup, List.find?_cons_of_pos _ (by simpa using h), if_pos h]
    rfl
  · rw [alookup, List.find?_cons_of_neg _ (by simpa using h), if_neg h]
    rfl

theorem aerase_cons {α : Type} (p : String × α) (t : List (String × α)) (k : String) :
    aerase (p :: t) k = if p.1 = k then aerase t k else p :: aerase t k := by
  by_cases h : p.1 = k <;> simp [aerase, List.filter_cons, h]

theorem alookup_isSome_iff_mem {α : Type} (l : List (String × α)) (r : String) :
    (alookup l r).isSome ↔ r ∈ l.map Prod.fst := by
  induction l with
  | nil => simp [alookup]
  | cons p t ih =>
    rw [alookup_cons, List.map_cons, List.mem_cons]
    by_cases h : p.1 = r
    · simp [h]
    · rw [if_neg h]
      rw [ih]
      constructor
      · exact fun hm => Or.inr hm
      · rintro (hc | hm)
        · exact absurd hc.symm h
        · exact hm

theorem alookup_aerase_self {α : Type} (l : List (String × α)) (k : String) :
    alookup (aerase l k) k = none := by
  induction l with
  | nil => rfl
  | cons p t ih =>
    rw [aerase_cons]
    by_cases h : p.1 = k
    · rw [if_pos h]; exact ih
    · rw [if_neg h, alookup_cons, if_neg h]; exact ih

theorem alookup_aerase_ne {α : Type} (l : List (String × α)) (k r : String)
    (h : r ≠ k) : alookup (aerase l k) r = alookup l r := by
  induction l with
  | nil => rfl
  | cons p t ih =>
    rw [aerase_cons]
    by_cases hk : p.1 = k
    · have hr : ¬ p.1 = r := by rw [hk]; exact fun hc => h hc.symm
      rw [if_pos hk, alookup_cons, if_neg hr]
      exact ih
    · rw [if_neg hk, alookup_cons, alookup_cons]
      by_cases hr : p.1 = r
      · rw [if_pos hr, if_pos hr]
      · rw [if_neg hr, if_neg hr]
        exact ih

theorem map_fst_aerase {α : Type} (l : List (String × α)) (k : String) :
    (aerase l k).map Prod.fst = (l.map Prod.fst).filter (fun x => x ≠ k) := by
  induction l with
  | nil => rfl
  | cons p t ih =>
    rw [aerase_cons]
    by_cases hk : p.1 = k
    · rw [if_pos hk, List.map_cons, List.filter_cons]
      simp [hk, ih]
    · rw [if_neg hk, List.map_cons, List.map_cons, List.filter_cons]
      simp [hk, ih]

theorem alookup_eq_some_mem {α : Type} {l : List (String × α)} {r : String} {c : α}
    (h : alookup l r = some c) : (r, c) ∈ l := by
  induction l with
  | nil => simp [alookup] at h
  | cons p t ih =>
    rw [alookup_cons] at h
    by_cases hp : p.1 = r
    · rw [if_pos hp] at h
      have : p = (r, c) := by
        cases p
        cases hp
        cases Option.some.inj h
        rfl
      rw [← this]
      exact List.mem_cons_self _ _
    · rw [if_neg hp] at h
      exact List.mem_cons_of_mem _ (ih h)

theorem alookup_of_mem_nodup {α : Type} {l : List (String × α)} {r : String} {c : α}
    (hnd : (l.map Prod.fst).Nodup) (h : (r, c) ∈ l) : alookup l r = some c := by
  induction l with
  | nil => simp at h
  | cons p t ih =>
    rw [List.map_cons, List.nodup_cons] at hnd
    rw [alookup_cons]
    rcases List.mem_cons.mp h with h1 | h1
    · rw [← h1]
      simp
    · have hpr : ¬ p.1 = r := by
        intro hc
        exact hnd.1 (hc ▸ (List.mem_map.mpr ⟨(r, c), h1, rfl⟩))
      rw [if_neg hpr]
      exact ih hnd.2 h1

/-! ## Lemmas about `remove_room` and the sweep fold -/

theorem remove_room_rooms_self (reg : RoomRegistry) (k : String) :
    alookup (reg.remove_room k).rooms k = none := by
  rw [RoomRegistry.remove_room]
  split
  · exact alookup_aerase_self _ _
  · next h => exact Option.not_isSome_iff_eq_none.mp h

theorem remove_room_creation_self (reg : RoomRegistry) (k : String) (hwf : reg.WF) :
    alookup (reg.remove_room k).creation k = none := by
  rw [RoomRegistry.remove_room]
  split
  · exact alookup_aerase_self _ _
  · next h =>
    rw [← Option.not_isSome_iff_eq_none]
    intro hc
    apply h
    rw [alookup_isSome_iff_mem, hwf.2, ← alookup_isSome_iff_mem]
    exact hc

theorem remove_room_lookup_ne (reg : RoomRegistry) (k r : String) (h : r ≠ k) :
    alookup (reg.remove_room k).rooms r = alookup reg.rooms r ∧
    alookup (reg.remove_room k).creation r = alookup reg.creation r := by
  rw [RoomRegistry.remove_room]
  split
  · exact ⟨alookup_aerase_ne _ _ _ h, alookup_aerase_ne _ _ _ h⟩
  · exact ⟨rfl, rfl⟩

theorem remove_room_WF (reg : RoomRegistry) (k : String) (hwf : reg.WF) :
    (reg.remove_room k).WF := by
  rw [RoomRegistry.remove_room]
  split
  · refine ⟨?_, ?_⟩
    · rw [map_fst_aerase]
      exact hwf.1.filter _
    · rw [map_fst_aerase, map_fst_aerase, hwf.2]
  · exact hwf

theorem remove_room_rooms_none (reg : RoomRegistry) (k r : String)
    (h : alookup reg.rooms r = none) : alookup (reg.remove_room k).rooms r = none := by
  by_cases hrk : r = k
  · rw [hrk]; exact remove_room_rooms_self reg k
  · rw [(remove_room_lookup_ne reg k r hrk).1]; exact h

theorem remove_room_creation_none (reg : RoomRegistry) (k r : String)
    (h : alookup reg.creation r = none) : alookup (reg.remove_room k).creation r = none := by
  rw [RoomRegistry.remove_room]
  split
  · by_cases hrk : r = k
    · rw [hrk]; exact alookup_aerase_self _ _
    · rw [alookup_aerase_ne _ _ _ hrk]; exact h
  · exact h

theorem removeFold_WF (names : List String) (reg : RoomRegistry) (hwf : reg.WF) :
    (removeFold reg names).WF := by
  induction names generalizing reg with
  | nil => exact hwf
  | cons n t ih => exact ih _ (remove_room_WF reg n hwf)

theorem removeFold_notmem (names : List String) (reg : RoomRegistry) (r : String)
    (h : r ∉ names) :
    alookup (removeFold reg names).rooms r = alookup reg.rooms r ∧
    alookup (removeFold reg names).creation r = alookup reg.creation r := by
  induction names generalizing reg with
  | nil => exact ⟨rfl, rfl⟩
  | cons n t ih =>
    have hrn : r ≠ n := fun hc => h (hc ▸ List.mem_cons_self n t)
    have ht : r ∉ t := fun hc => h (List.mem_cons_of_mem n hc)
    obtain ⟨h1, h2⟩ := ih (reg.remove_room n) ht
    obtain ⟨h3, h4⟩ := remove_room_lookup_ne reg n r hrn
    exact ⟨h1.trans h3, h2.trans h4⟩

theorem removeFold_none (names : List String) (reg : RoomRegistry) (r : String)
    (h1 : alookup reg.rooms r = none) (h2 : alookup reg.creation r = none) :
    alookup (removeFold reg names).rooms r = none ∧
    alookup (removeFold reg names).creation r = none := by
  induction names generalizing reg with
  | nil => exact ⟨h1, h2⟩
  | cons n t ih =>
    exact ih (reg.remove_room n) (remove_room_rooms_none reg n r h1)
      (remove_room_creation_none reg n r h2)

theorem removeFold_mem (names : List String) (reg : RoomRegistry) (r : String)
    (hwf : reg.WF) (h : r ∈ names) :
    alookup (removeFold reg names).rooms r = none ∧
    alookup (removeFold reg names).creation r = none := by
  induction names generalizing reg with
  | nil => simp at h
  | cons n t ih =>
    by_cases hrn : r = n
    · subst hrn
      have h1 : alookup (reg.remove_room r).rooms r = none := remove_room_rooms_self reg r
      have h2 : alookup (reg.remove_room r).creation r = none :=
        remove_room_creation_self reg r hwf
      exact removeFold_none t (reg.remove_room r) r h1 h2
    · have ht : r ∈ t := by
        rcases List.mem_cons.mp h with hc | hc
        · exact absurd hc hrn
        · exact hc
      exact ih (reg.remove_room n) (remove_room_WF reg n hwf) ht

theorem cleanup_eq_removeFold (reg : RoomRegistry) (now timeout : Nat) :
    reg.cleanup_stale_rooms now timeout = removeFold reg (staleNames reg now timeout) := rfl

theorem mem_staleNames {reg : RoomRegistry} {now timeout : Nat} {r : String} {c : Nat}
    (h : alookup reg.creation r = some c) (hst : now - c > timeout) :
    r ∈ staleNames reg now timeout :=
  List.mem_map.mpr ⟨(r, c), List.mem_filter.mpr ⟨alookup_eq_some_mem h, by simpa using hst⟩, rfl⟩

theorem not_mem_staleNames {reg : RoomRegistry} {now timeout : Nat} {r : String} {c : Nat}
    (hnd : (reg.creation.map Prod.fst).Nodup)
    (h : alookup reg.creation r = some c) (hy : ¬ now - c > timeout) :
    r ∉ staleNames reg now timeout := by
  intro hm
  obtain ⟨p, hp, hpr⟩ := List.mem_map.mp hm
  obtain ⟨hpmem, hpcond⟩ := List.mem_filter.mp hp
  have hpl : alookup reg.creation p.1 = some p.2 := alookup_of_mem_nodup hnd (by cases p; exact hpmem)
  rw [hpr, h] at hpl
  apply hy
  rw [Option.some.inj hpl]
  simpa using hpcond

/-! ## C9: the stale-room sweep -/

/-- C9: after one run of `cleanup_stale_rooms`, every registry entry whose
creation time is more than `timeout` in the past has been removed (from
both `_rooms` and `_room_creation_time`) regardless of its status field —
the sweep never inspects the room's state — and every entry younger than
the timeout is still present with its room state unchanged. -/
theorem cleanup_stale_rooms_spec (reg : RoomRegistry) (now timeout : Nat)
    (hwf : reg.WF) :
    (∀ r c, alookup reg.creation r = some c → now - c > timeout →
        alookup (reg.cleanup_stale_rooms now timeout).rooms r = none ∧
        alookup (reg.cleanup_stale_rooms now timeout).creation r = none) ∧
    (∀ r c, alookup reg.creation r = some c → now - c < timeout →
        alookup (reg.cleanup_stale_rooms now timeout).rooms r = alookup reg.rooms r ∧
        alookup (reg.cleanup_stale_rooms now timeout).creation r = some c) := by
  constructor
  · intro r c h hst
    rw [cleanup_eq_removeFold]
    exact removeFold_mem _ reg r hwf (mem_staleNames h hst)
  · intro r c h hy
    rw [cleanup_eq_removeFold]
    have hnd : (reg.creation.map Prod.fst).Nodup := hwf.2 ▸ hwf.1
    have hnm : r ∉ staleNames reg now timeout :=
      not_mem_staleNames hnd h (by omega)
    obtain ⟨h1, h2⟩ := removeFold_notmem _ reg r hnm
    exact ⟨h1, h2.trans h⟩

/-- Witness for C9: sweeping at time 7300 with the default one-hour
timeout removes the room created at time 0 (despite its `error` status)
and leaves the room created at time 5000 unchanged. -/
theorem cleanup_stale_rooms_spec_witness :
    alookup ((regW.cleanup_stale_rooms 7300 roomTimeoutDefault).rooms) "old" = none ∧
    alookup ((regW.cleanup_stale_rooms 7300 roomTimeoutDefault).rooms) "new" =
      alookup regW.rooms "new" := by
  have h := cleanup_stale_rooms_spec regW 7300 roomTimeoutDefault ⟨by decide, by decide⟩
  exact ⟨(h.1 "old" 0 (by decide) (by decide)).1, (h.2 "new" 5000 (by decide) (by decide)).1⟩

/-! ## C3: the summarizer is total -/

/-- C3: `generate_summary` is a total function: for every configuration
(provider unconfigured, SDK missing, malformed key), every remote
behaviour (including failure on every attempt) and every input string, it
returns some summary text (`.ok`) and never propagates an exception
(`.error`), so a summarizer failure never aborts the transfer. -/
theorem generate_summary_total :
    ∀ (cfg : GroqConfig) (oracle : Nat → GroqResult) (text : String),
      ∃ s, generate_summary cfg oracle text = .ok s := by
  intro cfg oracle text
  unfold generate_summary
  repeat' split
  all_goals exact ⟨_, rfl⟩

/-! ## C4: the empty-input placeholder depends on the configuration -/

/-- C4 counterexample: `Summarize("")` does not return one and the same
placeholder in every configuration: with the SDK unavailable it returns the
local fallback placeholder, while with Groq configured it returns
"No conversation to summarize." — two different strings. -/
theorem generate_summary_empty_not_config_independent :
    generate_summary cfgNoGroq oracleDown "" =
      .ok "LLM unavailable — No call notes available. Please verify details with the caller." ∧
    generate_summary cfgGroq oracleDown "" = .ok "No conversation to summarize." ∧
    generate_summary cfgNoGroq oracleDown "" ≠ generate_summary cfgGroq oracleDown "" := by
  refine ⟨rfl, rfl, ?_⟩
  decide

/-- C4 (amended): on empty or all-blank input `generate_summary` returns a
fixed placeholder noting no transcript, determined solely by the local
configuration — "No conversation to summarize." when the SDK is available
and a key is set, the fallback placeholder otherwise — and in either case
the result is independent of the remote provider's behaviour. -/
theorem generate_summary_empty_fixed_per_config
    (cfg : GroqConfig) (oracle oracle' : Nat → GroqResult) (text : String)
    (h : pyStrip text = "") :
    generate_summary cfg oracle text =
      .ok (if cfg.groqAvailable ∧ cfg.apiKey ≠ "" then "No conversation to summarize."
           else "LLM unavailable — No call notes available. Please verify details with the caller.") ∧
    generate_summary cfg oracle text = generate_summary cfg oracle' text := by
  have key : ∀ o : Nat → GroqResult,
      generate_summary cfg o text =
        .ok (if cfg.groqAvailable ∧ cfg.apiKey ≠ "" then "No conversation to summarize."
             else "LLM unavailable — No call notes available. Please verify details with the caller.") := by
    intro o
    unfold generate_summary fallback_summary
    by_cases ha : cfg.groqAvailable <;> by_cases hk : cfg.apiKey = "" <;>
      simp [ha, hk, h]
  exact ⟨key oracle, (key oracle).trans (key oracle').symm⟩

/-- Witness for C4's amended theorem at a concrete configuration and the
empty transcript. -/
theorem generate_summary_empty_fixed_per_config_witness :
    generate_summary cfgGroq oracleDown "" =
      .ok (if cfgGroq.groqAvailable ∧ cfgGroq.apiKey ≠ "" then "No conversation to summarize."
           else "LLM unavailable — No call notes available. Please verify details with the caller.") :=
  (generate_summary_empty_fixed_per_config cfgGroq oracleDown oracleBlank "" (by decide)).1

/-! ## C8: E.164 phone-number validation -/

/-- C8: the telephony request's phone-number validation accepts
`"+12125551234"` (returning the normalised E.164 form), rejects
`"2125551234"` (no leading plus; it passes the pydantic length bounds and
fails the E.164 pattern), rejects `"+1"` (too short; it already fails the
`min_length=10` field bound, and the custom validator rejects it as well),
and a rejected number reaches zero placement attempts — validation happens
while parsing the request, before any remote call. -/
theorem phone_validation_cases :
    phoneFieldValidation "+12125551234" = .ok "+12125551234" ∧
    phoneFieldValidation "2125551234" =
      .error "Phone number must be in E.164 format (e.g., +12125551234)." ∧
    phoneFieldValidation "+1" = .error "field length out of bounds" ∧
    validate_phone_number "+1" =
      .error "Phone number must be in E.164 format (e.g., +12125551234)." ∧
    (∀ oracle : Nat → TwilioAttempt,
      (twilioEndpointPhone "2125551234" oracle).attempts = 0 ∧
      (twilioEndpointPhone "+1" oracle).attempts = 0) := by
  refine ⟨by decide, by decide, by decide, by decide, fun oracle => ⟨rfl, rfl⟩⟩

/-- C6: when the first two placement attempts raise a provider exception
and the third succeeds, exactly 3 attempts are made, the returned call id
and status are those of the third attempt, and the two backoff waits are
exponential (1 and 2 delay units); in general at most `maxRetries`
attempts are ever made, and when every attempt fails the failure is
surfaced after exactly `maxRetries` attempts. -/
theorem twilio_retry_behavior
    (oracle : Nat → TwilioAttempt) (sid status e1 e2 : String)
    (h0 : oracle 0 = .twilioError e1) (h1 : oracle 1 = .twilioError e2)
    (h2 : oracle 2 = .ok sid status) :
    placeCallLoop oracle 3 = ⟨.ok (sid, status), 3, [1, 2]⟩ ∧
    (∀ (orc : Nat → TwilioAttempt) (m : Nat), (placeCallLoop orc m).attempts ≤ m) ∧
    (∀ (orc : Nat → TwilioAttempt) (m : Nat),
      (∀ k, ∃ e, orc k = .twilioError e) →
      (placeCallLoop orc m).result = .error (callInitiationFailed m) ∧
      (placeCallLoop orc m).attempts = m) := by
  refine ⟨?_, ?_, ?_⟩
  · simp [placeCallLoop, placeCallGo, h0, h1, h2]
  · intro orc m
    have go_bound : ∀ (n made : Nat) (ds : List Nat),
        (placeCallGo orc m n made ds).attempts ≤ made + n := by
      intro n
      induction n with
      | zero => intro made ds; simp [placeCallGo]
      | succ k ih =>
        intro made ds
        simp only [placeCallGo]
        cases orc made with
        | ok s t => simp
        | twilioError e =>
          by_cases hk : k = 0
          · simp [hk]
          · simpa [hk] using le_trans (ih (made + 1) (ds ++ [2 ^ made])) (by omega)
        | otherError e => simp
    simpa using go_bound m 0 []
  · intro orc m hall
    have go_all : ∀ (n made : Nat) (ds : List Nat),
        (placeCallGo orc m n made ds).result = .error (callInitiationFailed m) ∧
        (placeCallGo orc m n made ds).attempts = made + n := by
      intro n
      induction n with
      | zero => intro made ds; simp [placeCallGo]
      | succ k ih =>
        intro made ds
        obtain ⟨e, he⟩ := hall made
        simp only [placeCallGo, he]
        by_cases hk : k = 0
        · simp [hk]
        · simpa [hk] using ⟨(ih (made + 1) (ds ++ [2 ^ made])).1, by
            have := (ih (made + 1) (ds ++ [2 ^ made])).2
            omega⟩
    simpa using go_all m 0 []

/-- Witness for C6 at a concrete oracle whose first two attempts fail. -/
theorem twilio_retry_behavior_witness :
    placeCallLoop oracleThirdTime 3 = ⟨.ok ("CA123", "queued"), 3, [1, 2]⟩ :=
  (twilio_retry_behavior oracleThirdTime "CA123" "queued" "transient" "transient"
    (by decide) (by decide) (by decide)).1

/-- C7 (evaluating the code at the failing input): after the placement
path persists a status for room `r1` and the webhook then reports the same
call completed, (a) the webhook wrote a different `call_status` row (keyed
by the call sid) instead of updating `r1`'s row, which still holds the old
status, and (b) the `/twilio-call-status/r1` query — which reads the
`calls` table of `db_operations.py` that none of the three persistence
paths write — returns not-found rather than the most recently persisted
status, contradicting the claim. -/
theorem call_status_paths_do_not_converge :
    c7Stores.sd "r1" = some ⟨"CA1", "queued", "+12125551234"⟩ ∧
    c7Stores.sd "CA1" = some ⟨"CA1", "completed", ""⟩ ∧
    c7Stores.dbo = [] ∧
    get_twilio_call_status c7Stores "r1" = .notFound := by
  refine ⟨by decide, by decide, rfl, rfl⟩

/-! ## Lock lemmas for the transfer coordinator -/

theorem finallyRelease_locks (room : String) (st : Sys) :
    (finallyRelease room st).locks room ≠ some true := by
  rw [finallyRelease]
  split
  · simp [storeLock]
  · next h => exact h

theorem finallyRelease_registry (room : String) (st : Sys) :
    (finallyRelease room st).registry = st.registry := by
  rw [finallyRelease]; split <;> rfl

theorem finallyRelease_store (room : String) (st : Sys) :
    (finallyRelease room st).store = st.store := by
  rw [finallyRelease]; split <;> rfl

theorem notBlocked_of_lockFree {st' : Sys} {room : String}
    (h : st'.locks room ≠ some true) (env2 : TransferEnv) (i t tr : String) :
    transfer env2 ⟨room, i, t, tr⟩ st' ≠ .blocked := by
  intro hc
  rw [transfer] at hc
  dsimp only at hc
  by_cases hval : (room = "" ∨ i = "" ∨ t = "")
  · rw [if_pos hval] at hc
    exact TransferOutcome.noConfusion hc
  · rw [if_neg hval] at hc
    by_cases hl : setdefaultLock st'.locks room room = some true
    · apply h
      rw [setdefaultLock, if_pos rfl] at hl
      have hg : (st'.locks room).getD false = true := Option.some.inj hl
      cases o : st'.locks room with
      | none => rw [o] at hg; simp at hg
      | some b => rw [o] at hg; simp at hg; rw [hg]
    · rw [if_neg hl] at hc
      exact TransferOutcome.noConfusion hc

/-! ## C2: the lock is never held after the transfer finishes -/

/-- C2: for every execution of `/transfer` — returning successfully or
failing at any step (validation, state update, summarization, persistence,
token minting, with arbitrary injected collaborator failures) — the
room's transfer lock is not held once the execution finishes, and a
subsequent transfer request for the same room is never blocked on lock
acquisition. -/
theorem transfer_always_releases_lock :
    ∀ (env : TransferEnv) (req : TransferRequest) (st : Sys),
      lockFreeAfter req.from_room (transfer env req st) := by
  intro env req st
  rw [transfer]
  by_cases hval : (req.from_room = "" ∨ req.initiator_identity = "" ∨
      req.target_identity = "")
  · rw [if_pos hval]
    exact ⟨finallyRelease_locks _ _,
      fun env2 i t tr => notBlocked_of_lockFree (finallyRelease_locks _ _) env2 i t tr⟩
  · rw [if_neg hval]
    by_cases hl : setdefaultLock st.locks req.from_room req.from_room = some true
    · rw [if_pos hl]
      trivial
    · rw [if_neg hl]
      rcases htb : transferBody env req st.registry st.store with ⟨res, reg', store'⟩
      exact ⟨finallyRelease_locks _ _,
        fun env2 i t tr => notBlocked_of_lockFree (finallyRelease_locks _ _) env2 i t tr⟩

/-! ## C1: a held lock blocks the second request forever -/

/-- C1 (the code, evaluated at the failing situation): when the room's
transfer lock is already held by another in-flight transfer, a valid
transfer request for the same room makes the endpoint block indefinitely
inside `lock.acquire()` — `with transfer_locks.setdefault(room, Lock())`
on main.py line 363 uses a plain blocking acquire, the `LOCK_TIMEOUT`
constant of line 230 is never used, and no "transfer already in progress"
conflict error exists in the code — contradicting the claim that the wait
is bounded and ends in a conflict error. -/
theorem transfer_blocks_forever_on_held_lock
    (env : TransferEnv) (req : TransferRequest) (st : Sys)
    (h1 : req.from_room ≠ "") (h2 : req.initiator_identity ≠ "")
    (h3 : req.target_identity ≠ "")
    (hlock : st.locks req.from_room = some true) :
    transfer env req st = .blocked := by
  rw [transfer, if_neg (by simp [h1, h2, h3]), if_pos (by simp [setdefaultLock, hlock])]

/-- Witness for C1: a concrete valid request against a held `r1` lock
blocks. -/
theorem transfer_blocks_forever_on_held_lock_witness :
    transfer envFail reqR1 sysHeldLock = .blocked :=
  transfer_blocks_forever_on_held_lock envFail reqR1 sysHeldLock
    (by decide) (by decide) (by decide) (by decide)

/-! ## String and store lemmas for the coordinator -/

theorem append_ne_empty_left :
    ∀ (a b : String), a ≠ "" → a ++ b ≠ ""
  | ⟨ad⟩, ⟨bd⟩, h, hc => by
    apply h
    have hdata : ad ++ bd = ([] : List Char) := congrArg String.data hc
    have : ad = [] := (List.append_eq_nil.mp hdata).1
    rw [this]

theorem get_set_room_transcript_self (store : TranscriptStore) (room t : String) :
    get_room_transcripts (set_room_transcript store room t) room =
      get_room_transcripts store room ++ [t] := by
  simp [get_room_transcripts, set_room_transcript]

theorem get_room_transcripts_set_summary (store : TranscriptStore) (room r sm : String) :
    get_room_transcripts (set_room_summary store room sm) r = get_room_transcripts store r := rfl

theorem get_summary_set_transcript (store : TranscriptStore) (room r t : String) :
    get_room_summary (set_room_transcript store room t) r = get_room_summary store r := rfl

theorem str_append_assoc : ∀ (a b c : String), (a ++ b) ++ c = a ++ (b ++ c)
  | ⟨ad⟩, ⟨bd⟩, ⟨cd⟩ => congrArg String.mk (List.append_assoc ad bd cd)

theorem joinNL_snoc (l : List String) (t : String) :
    joinNL (l ++ [t]) = if l = [] then t else joinNL l ++ "\n" ++ t := by
  induction l with
  | nil => simp [joinNL]
  | cons a l ih =>
    cases l with
    | nil => simp [joinNL]
    | cons b l2 =>
      have step : joinNL ((a :: b :: l2) ++ [t]) = a ++ "\n" ++ joinNL ((b :: l2) ++ [t]) := rfl
      rw [step, ih, if_neg (by simp), if_neg (by simp)]
      show a ++ "\n" ++ (joinNL (b :: l2) ++ "\n" ++ t) =
        (a ++ "\n" ++ joinNL (b :: l2)) ++ "\n" ++ t
      rw [str_append_assoc (a ++ "\n" ++ joinNL (b :: l2)) "\n" t,
          str_append_assoc (a ++ "\n") (joinNL (b :: l2)) ("\n" ++ t),
          str_append_assoc (joinNL (b :: l2)) "\n" t]

theorem joinNL_nil : joinNL [] = "" := rfl

theorem joinNL_ne_nil {l : List String} (h : joinNL l ≠ "") : l ≠ [] := by
  intro hc
  rw [hc] at h
  exact h rfl

/-! ## `transferPrepare` lemmas -/

theorem transferPrepare_summary_ne (env : TransferEnv) (req : TransferRequest)
    (reg : RoomRegistry) (store : TranscriptStore)
    (hsum : ∀ t s, env.summarize t = .ok s → s ≠ "") :
    (transferPrepare env req reg store).2.2 ≠ "" := by
  dsimp only [transferPrepare]
  split
  · next s hs => exact hsum _ s hs
  · next e he =>
    exact append_ne_empty_left _ _ (append_ne_empty_left _ _ (by decide))

theorem transferPrepare_persists (env : TransferEnv) (req : TransferRequest)
    (reg : RoomRegistry) (store : TranscriptStore) :
    get_room_summary (transferPrepare env req reg store).2.1 req.from_room =
      some (transferPrepare env req reg store).2.2 := by
  dsimp only [transferPrepare]
  split <;> split <;> simp [get_room_summary, set_room_transcript, set_room_summary]

theorem transferPrepare_fragments (env : TransferEnv) (req : TransferRequest)
    (reg : RoomRegistry) (store : TranscriptStore) :
    get_room_transcripts (transferPrepare env req reg store).2.1 req.from_room =
      (let mid := get_room_transcripts store req.from_room ++
          (if req.transcript ≠ "" ∧ pyStrip req.transcript ≠ "" then [pyStrip req.transcript]
           else []);
       if joinNL mid ≠ "" then mid ++ [joinNL mid] else mid) := by
  dsimp only [transferPrepare]
  by_cases htx : (req.transcript ≠ "" ∧ pyStrip req.transcript ≠ "")
  · simp only [if_pos htx, get_set_room_transcript_self]
    split <;> next hj =>
      simp [get_set_room_transcript_self, get_room_transcripts_set_summary, hj]
  · simp only [if_neg htx, List.append_nil]
    split <;> next hj =>
      simp [get_set_room_transcript_self, get_room_transcripts_set_summary, hj]

/-! ## `transferBody` lemmas -/

theorem transferBody_store (env : TransferEnv) (req : TransferRequest)
    (reg : RoomRegistry) (store : TranscriptStore) :
    (transferBody env req reg store).2.2 = (transferPrepare env req reg store).2.1 := by
  rw [transferBody]
  rcases hp : transferPrepare env req reg store with ⟨reg2, store3, summary⟩
  dsimp only
  split <;> try rfl
  split <;> try rfl
  split <;> rfl

theorem transferBody_mint_ok (env : TransferEnv) (req : TransferRequest)
    (reg : RoomRegistry) (store : TranscriptStore)
    (pI pT pC : TokenPayload)
    (hI : env.mint req.from_room req.initiator_identity "agent" = .ok pI)
    (hT : env.mint req.from_room req.target_identity "agent" = .ok pT)
    (hC : env.mint req.from_room env.callerIdentity "caller" = .ok pC) :
    transferBody env req reg store =
      (.ok { to_room := req.from_room, initiator_token := pI, target_token := pT,
             caller_token := pC, summary := (transferPrepare env req reg store).2.2 },
       (transferPrepare env req reg store).1,
       (transferPrepare env req reg store).2.1) := by
  rw [transferBody]
  rcases hp : transferPrepare env req reg store with ⟨reg2, store3, summary⟩
  dsimp only
  rw [hI, hT, hC]

/-! ## Lock-acquisition helper -/

theorem setdefault_not_held {locks : String → Option Bool} {room : String}
    (h : locks room ≠ some true) :
    ¬ setdefaultLock locks room room = some true := by
  rw [setdefaultLock, if_pos rfl]
  intro hc
  apply h
  have hg := Option.some.inj hc
  cases o : locks room with
  | none => rw [o] at hg; simp at hg
  | some b => rw [o] at hg; simp at hg; rw [hg]

theorem grantFor_agent_pd (room : String) : (grantFor "agent" room).canPublishData = true := by
  rw [grantFor, if_pos rfl]

theorem grantFor_caller_pd (room : String) :
    (grantFor "caller" room).canPublishData = false := by
  rw [grantFor, if_neg (by decide), if_pos rfl]

theorem mintTok_ok (cfg : LiveKitConfig) (now : Nat) (room i role : String)
    (hKey : cfg.apiKey ≠ "") (hSec : cfg.apiSecret ≠ "") :
    mintTok cfg now room i role =
      .ok { iss := cfg.apiKey, nbf := now, exp := now + 3600, sub := i,
            video := grantFor role room } := by
  show mint_access_token cfg now room i role = _
  rw [mint_access_token, if_neg (by simp [hKey, hSec])]

/-! ## C5: shape of a successful transfer -/

/-- C5 (amended): for every valid transfer request (non-blank room and
identities, distinct agent identities) executed with the lock free and the
LiveKit keys configured, and for EVERY summarizer, the transfer succeeds;
the returned `to_room` equals the request's `from_room`, the three
returned tokens are pairwise distinct, and the summary persisted for the
room equals the returned summary.  The returned summary is non-empty
provided the summarizer returns non-blank text on success — the fallback
paths always do, but the remote path can hand back whitespace-only content
which strips to the empty string; only the non-emptiness conjunct carries
that proviso. -/
theorem transfer_success_properties
    (cfg : LiveKitConfig) (summarize : String → Except String String)
    (caller : String) (now : Nat) (req : TransferRequest) (st : Sys)
    (hKey : cfg.apiKey ≠ "") (hSec : cfg.apiSecret ≠ "")
    (h1 : req.from_room ≠ "") (h2 : req.initiator_identity ≠ "")
    (h3 : req.target_identity ≠ "")
    (hne : req.initiator_identity ≠ req.target_identity)
    (hlock : st.locks req.from_room ≠ some true) :
    ∃ (resp : TransferResponse) (st' : Sys),
      transfer ⟨summarize, mintTok cfg now, caller, now⟩ req st = .done (.ok resp) st' ∧
      resp.to_room = req.from_room ∧
      ((∀ t s, summarize t = .ok s → s ≠ "") → resp.summary ≠ "") ∧
      resp.initiator_token ≠ resp.target_token ∧
      resp.initiator_token ≠ resp.caller_token ∧
      resp.target_token ≠ resp.caller_token ∧
      get_room_summary st'.store req.from_room = some resp.summary := by
  have hbody := transferBody_mint_ok ⟨summarize, mintTok cfg now, caller, now⟩ req
    st.registry st.store _ _ _
    (mintTok_ok cfg now req.from_room req.initiator_identity "agent" hKey hSec)
    (mintTok_ok cfg now req.from_room req.target_identity "agent" hKey hSec)
    (mintTok_ok cfg now req.from_room caller "caller" hKey hSec)
  have heq : transfer ⟨summarize, mintTok cfg now, caller, now⟩ req st =
      .done (.ok
        { to_room := req.from_room,
          initiator_token :=
            ⟨cfg.apiKey, now, now + 3600, req.initiator_identity, grantFor "agent" req.from_room⟩,
          target_token :=
            ⟨cfg.apiKey, now, now + 3600, req.target_identity, grantFor "agent" req.from_room⟩,
          caller_token := ⟨cfg.apiKey, now, now + 3600, caller, grantFor "caller" req.from_room⟩,
          summary := (transferPrepare ⟨summarize, mintTok cfg now, caller, now⟩ req
            st.registry st.store).2.2 })
        (finallyRelease req.from_room
          { locks := storeLock (setdefaultLock st.locks req.from_room) req.from_room false,
            registry := (transferPrepare ⟨summarize, mintTok cfg now, caller, now⟩ req
              st.registry st.store).1,
            store := (transferPrepare ⟨summarize, mintTok cfg now, caller, now⟩ req
              st.registry st.store).2.1 }) := by
    rw [transfer, if_neg (by simp [h1, h2, h3]), if_neg (setdefault_not_held hlock), hbody]
  refine ⟨_, _, heq, rfl, ?_, ?_, ?_, ?_, ?_⟩
  · intro hsum
    exact transferPrepare_summary_ne _ req st.registry st.store hsum
  · intro hc
    exact hne (congrArg TokenPayload.sub hc)
  · intro hc
    have hpd := congrArg (fun p => p.video.canPublishData) hc
    dsimp only at hpd
    rw [grantFor_agent_pd, grantFor_caller_pd] at hpd
    exact Bool.noConfusion hpd
  · intro hc
    have hpd := congrArg (fun p => p.video.canPublishData) hc
    dsimp only at hpd
    rw [grantFor_agent_pd, grantFor_caller_pd] at hpd
    exact Bool.noConfusion hpd
  · rw [finallyRelease_store]
    exact transferPrepare_persists _ req st.registry st.store

/-- Witness for C5's amended theorem: the concrete end-to-end scenario
succeeds. -/
theorem transfer_success_properties_witness :
    (doneSummary (transfer envMintOk reqHelp sysEmpty)).isSome = true := by
  obtain ⟨resp, st', heq, -, -, -, -, -, -⟩ :=
    transfer_success_properties cfgLK (fun _ => .error "llm down") "caller" 100 reqHelp
      sysEmpty (by decide) (by decide) (by decide) (by decide) (by decide) (by decide)
      (by intro hc; exact Option.noConfusion hc)
  rw [show transfer envMintOk reqHelp sysEmpty =
      transfer ⟨fun _ => .error "llm down", mintTok cfgLK 100, "caller", 100⟩ reqHelp sysEmpty
    from rfl, heq]
  rfl

/-- C5 counterexample: a fully valid request (non-blank fields, distinct
identities) for which the completed transfer returns an EMPTY summary —
the Groq response's `message.content` is `" "`, which passes the
`not message.content` check and strips to `""` — refuting the claim that
the returned summary is always non-empty. -/
theorem transfer_summary_can_be_empty :
    doneSummary (transfer envBlankSummary reqHelp sysEmpty) = some "" ∧
    reqHelp.from_room ≠ "" ∧ reqHelp.initiator_identity ≠ "" ∧
    reqHelp.target_identity ≠ "" ∧
    reqHelp.initiator_identity ≠ reqHelp.target_identity := by
  exact ⟨rfl, by decide, by decide, by decide, by decide⟩

/-! ## C10: transfers append and duplicate transcript fragments -/

theorem transfer_store_after (env : TransferEnv) (req : TransferRequest) (st : Sys)
    (h1 : req.from_room ≠ "") (h2 : req.initiator_identity ≠ "")
    (h3 : req.target_identity ≠ "") (hlock : st.locks req.from_room ≠ some true) :
    ∀ res st', transfer env req st = .done res st' →
      st'.store = (transferPrepare env req st.registry st.store).2.1 := by
  intro res st' heq
  rw [transfer, if_neg (by simp [h1, h2, h3]), if_neg (setdefault_not_held hlock)] at heq
  rcases htb : transferBody env req st.registry st.store with ⟨res0, reg0, store0⟩
  rw [htb] at heq
  cases heq
  rw [finallyRelease_store]
  have hst := transferBody_store env req st.registry st.store
  rw [htb] at hst
  exact hst

/-- C10: `set_room_transcript` appends its argument as a new fragment
rather than replacing the stored transcript; consequently a completed
transfer on a room whose stored transcript is non-empty appends the
request's (stripped) transcript as one fragment when present, and then
appends the newline-joined concatenation of all fragments read back as one
additional fragment — so the fragment list strictly grows and previously
stored content is duplicated inside the final joined fragment. -/
theorem transfer_duplicates_transcript (env : TransferEnv) (req : TransferRequest) (st : Sys)
    (h1 : req.from_room ≠ "") (h2 : req.initiator_identity ≠ "")
    (h3 : req.target_identity ≠ "") (hlock : st.locks req.from_room ≠ some true)
    (hold : joinNL (get_room_transcripts st.store req.from_room) ≠ "") :
    (∀ (store : TranscriptStore) (room t : String),
        get_room_transcripts (set_room_transcript store room t) room =
          get_room_transcripts store room ++ [t]) ∧
    (∀ res st', transfer env req st = .done res st' →
      get_room_transcripts st'.store req.from_room =
        (get_room_transcripts st.store req.from_room ++
          (if req.transcript ≠ "" ∧ pyStrip req.transcript ≠ ""
           then [pyStrip req.transcript] else [])) ++
        [joinNL (get_room_transcripts st.store req.from_room ++
          (if req.transcript ≠ "" ∧ pyStrip req.transcript ≠ ""
           then [pyStrip req.transcript] else []))] ∧
      (get_room_transcripts st.store req.from_room).length <
        (get_room_transcripts st'.store req.from_room).length) := by
  refine ⟨get_set_room_transcript_self, ?_⟩
  intro res st' heq
  have hstore := transfer_store_after env req st h1 h2 h3 hlock res st' heq
  have hfrag := transferPrepare_fragments env req st.registry st.store
  rw [hstore, hfrag]
  have hmidne : joinNL (get_room_transcripts st.store req.from_room ++
      (if req.transcript ≠ "" ∧ pyStrip req.transcript ≠ ""
       then [pyStrip req.transcript] else [])) ≠ "" := by
    by_cases htx : (req.transcript ≠ "" ∧ pyStrip req.transcript ≠ "")
    · rw [if_pos htx, joinNL_snoc, if_neg (joinNL_ne_nil hold)]
      exact append_ne_empty_left _ _ (append_ne_empty_left _ _ hold)
    · rw [if_neg htx, List.append_nil]
      exact hold
  constructor
  · dsimp only
    rw [if_pos hmidne]
  · dsimp only
    rw [if_pos hmidne]
    simp

/-- Witness for C10 at a concrete room with one stored fragment and a
request carrying no transcript: the completed transfer leaves the fragment
list `["hello", "hello"]`. -/
theorem transfer_duplicates_transcript_witness :
    get_room_transcripts
        (set_room_transcript sysFrag.store "r1" "x") "r1" = ["hello", "x"] := by
  have h := (transfer_duplicates_transcript envFail reqR1 sysFrag (by decide) (by decide)
    (by decide) (by intro hc; exact Option.noConfusion hc) (by decide)).1
  rw [h sysFrag.store "r1" "x"]
  decide

end WarmTransfer
